import Mathlib

/-!
# Verification of the packaging-advisor scoring and inference engine

Shallow embedding of the engine functions of `src/packaging_app.py`:
`get_auto_parameters`, `calculate_packaging_score` and
`apply_recommendation_rules`, together with the product-saving path of
`save_product_page` that stores an inferred profile.

Python dictionaries are modelled as association lists (`Dict α`) read
through `List.lookup` (first binding wins, as for a Python dict with unique
keys); numbers are modelled as rationals (`ℚ`); Python `KeyError` on a
missing required field of a material record is modelled by `Except String`;
the human-readable `scoring_details` strings are abstracted to a tagged
`Detail` type that records which line the source appends and with which
points, in the same order as the source.
-/

namespace PackagingApp

/-- A Python dict with string keys, as an association list. -/
abbrev Dict (α : Type) : Type := List (String × α)

/-- `d.get(k)` — `None` when the key is absent. -/
def dictGet? {α : Type} (d : Dict α) (k : String) : Option α :=
  List.lookup k d

/-- `d.get(k, fallback)`. -/
def dictGet {α : Type} (d : Dict α) (k : String) (fallback : α) : α :=
  (List.lookup k d).getD fallback

/-! ## Python string helpers

`str.lower` and `str.title` restricted to ASCII (all catalog keywords and
barrier levels in the program are ASCII), and the `needle in haystack`
substring test. -/

/-- `str.lower()` (ASCII). -/
def pyLower (s : String) : String :=
  String.mk (s.toList.map Char.toLower)

/-- One step of `str.title()`: a letter is uppercased when the previous
character is not a letter, lowercased otherwise. -/
def pyTitleAux : Bool → List Char → List Char
  | _, [] => []
  | prevAlpha, c :: cs =>
    let c2 := if c.isAlpha then (if prevAlpha then c.toLower else c.toUpper) else c
    c2 :: pyTitleAux c.isAlpha cs

/-- `str.title()` (ASCII). -/
def pyTitle (s : String) : String :=
  String.mk (pyTitleAux false s.toList)

/-- `needle` is a prefix of `hay`. -/
def isPrefixL : List Char → List Char → Bool
  | [], _ => true
  | _ :: _, [] => false
  | a :: as, b :: bs => a = b && isPrefixL as bs

/-- `needle` occurs as a contiguous sublist of `hay`. -/
def containsL (needle : List Char) : List Char → Bool
  | [] => needle.isEmpty
  | b :: bs => isPrefixL needle (b :: bs) || containsL needle bs

/-- Python `needle in hay` on strings (substring containment). -/
def pyIn (needle hay : String) : Bool :=
  containsL needle.toList hay.toList

/-- `any(word in hay for word in words)`. -/
def anyIn (words : List String) (hay : String) : Bool :=
  words.any (fun w => pyIn w hay)

/-! ## Attribute profiles

`get_auto_parameters` builds a dict with exactly these fifteen keys
(lines 218–234); we model it as a structure.  A *stored* profile
(`products[name]["auto_parameters"]`, applied via `dict.update`) may carry
any subset of the keys, so it is a structure of `Option` fields. -/

/-- The fully populated profile produced by `get_auto_parameters`. -/
structure AutoParams where
  product_state : String
  viscosity : String
  ph_level : String
  oxygen_sensitivity : String
  moisture_sensitivity : String
  light_sensitivity : String
  storage_temperature : String
  target_market : String
  industry_category : String
  budget_range : String
  sustainability_priority : String
  safety_requirements : List String
  brand_positioning : String
  fragility_level : String
  shelf_life_requirement : String
deriving Repr, DecidableEq

/-- A stored `auto_parameters` record: any subset of the fifteen keys. -/
structure PartialParams where
  product_state : Option String := none
  viscosity : Option String := none
  ph_level : Option String := none
  oxygen_sensitivity : Option String := none
  moisture_sensitivity : Option String := none
  light_sensitivity : Option String := none
  storage_temperature : Option String := none
  target_market : Option String := none
  industry_category : Option String := none
  budget_range : Option String := none
  sustainability_priority : Option String := none
  safety_requirements : Option (List String) := none
  brand_positioning : Option String := none
  fragility_level : Option String := none
  shelf_life_requirement : Option String := none
deriving Repr, DecidableEq

/-- `auto_params.update(stored_params)` (line 240): every key present in the
stored record overwrites the corresponding default. -/
def AutoParams.update (p : AutoParams) (s : PartialParams) : AutoParams where
  product_state := s.product_state.getD p.product_state
  viscosity := s.viscosity.getD p.viscosity
  ph_level := s.ph_level.getD p.ph_level
  oxygen_sensitivity := s.oxygen_sensitivity.getD p.oxygen_sensitivity
  moisture_sensitivity := s.moisture_sensitivity.getD p.moisture_sensitivity
  light_sensitivity := s.light_sensitivity.getD p.light_sensitivity
  storage_temperature := s.storage_temperature.getD p.storage_temperature
  target_market := s.target_market.getD p.target_market
  industry_category := s.industry_category.getD p.industry_category
  budget_range := s.budget_range.getD p.budget_range
  sustainability_priority := s.sustainability_priority.getD p.sustainability_priority
  safety_requirements := s.safety_requirements.getD p.safety_requirements
  brand_positioning := s.brand_positioning.getD p.brand_positioning
  fragility_level := s.fragility_level.getD p.fragility_level
  shelf_life_requirement := s.shelf_life_requirement.getD p.shelf_life_requirement

/-- A stored record holding every key: used to store an inferred profile
(`save_product_page` stores the full `auto_params` dict). -/
def toPartial (p : AutoParams) : PartialParams where
  product_state := some p.product_state
  viscosity := some p.viscosity
  ph_level := some p.ph_level
  oxygen_sensitivity := some p.oxygen_sensitivity
  moisture_sensitivity := some p.moisture_sensitivity
  light_sensitivity := some p.light_sensitivity
  storage_temperature := some p.storage_temperature
  target_market := some p.target_market
  industry_category := some p.industry_category
  budget_range := some p.budget_range
  sustainability_priority := some p.sustainability_priority
  safety_requirements := some p.safety_requirements
  brand_positioning := some p.brand_positioning
  fragility_level := some p.fragility_level
  shelf_life_requirement := some p.shelf_life_requirement

/-! ## The catalog (the JSON database) -/

/-- A stored product.  Of the persisted record only `auto_parameters` is read
by the engine (`products[product_name].get("auto_parameters", {})`,
line 239); the display-only fields (`basic_info`, `properties`, `packaging`,
`created_date`) are not modelled. -/
structure Product where
  auto_parameters : PartialParams := {}
deriving Repr, DecidableEq

/-- `characteristics` of a material record.  Every field the scorer reads
with a bare `[...]` access is an `Option`: an absent field is a Python
`KeyError`. -/
structure MaterialChars where
  product_state_compatibility : Option (List String) := none
  oxygen_barrier : Option String := none
  moisture_barrier : Option String := none
  light_barrier : Option String := none
  ph_tolerance : Option (List String) := none
  cost_category : Option String := none
  temperature_range : Option (List String) := none
deriving Repr, DecidableEq

/-- `sustainability` of a material record. -/
structure Sustainability where
  recyclable : Option Bool := none
  pcr_available : Option Bool := none
  biodegradable : Option Bool := none
deriving Repr, DecidableEq

/-- A material record.  `material_type`, `pros` and `cons` are display-only
and not read by the scorer, so they are not modelled. -/
structure MaterialData where
  characteristics : MaterialChars := {}
  sustainability : Sustainability := {}
deriving Repr, DecidableEq

/-- A recommendation rule.  The source reads each field with
`rule_data.get(key, fallback)` (fallbacks `[]`, `[]`, `[]`, `0`); an absent
key is identified with its fallback value, so the fields are plain. -/
structure RuleData where
  triggers : List (Dict String) := []
  recommended_materials : List String := []
  avoid_materials : List String := []
  priority_score : ℚ := 0
deriving Repr, DecidableEq

/-- `scoring_parameters`.  The source reads the three tables with
`.get(key, {})`, so an absent table is identified with an empty one. -/
structure ScoringParams where
  compatibility_weights : Dict ℚ := []
  barrier_scoring : Dict (Dict (Dict ℚ)) := []
  cost_scoring : Dict (Dict ℚ) := []
deriving Repr, DecidableEq

/-- The database.  The four sections are read with `db.get(section, {})`, so
an absent section is identified with an empty one. -/
structure DB where
  products : Dict Product := []
  packaging_materials : Dict MaterialData := []
  recommendation_rules : Dict RuleData := []
  scoring_parameters : ScoringParams := {}
deriving Repr, DecidableEq

/-! ## Attribute inference (`get_auto_parameters`, lines 214–336) -/

/-- The default profile (lines 218–234). -/
def defaultParams (cost shelf_life : String) : AutoParams where
  product_state := "Liquid"
  viscosity := "Medium"
  ph_level := "Neutral"
  oxygen_sensitivity := "Medium"
  moisture_sensitivity := "Medium"
  light_sensitivity := "Medium"
  storage_temperature := "Ambient"
  target_market := "Consumer retail"
  industry_category := "Food"
  budget_range := cost
  sustainability_priority := "Balanced"
  safety_requirements := []
  brand_positioning := "Mainstream"
  fragility_level := "Moderate"
  shelf_life_requirement := shelf_life

/-- The keyword-category cascade (lines 249–322): the first matching
category block applies exclusively. -/
def categorize (product_lower : String) (p : AutoParams) : AutoParams :=
  if anyIn ["juice", "drink", "beverage", "soda", "water", "tea", "coffee", "milk"] product_lower then
    let p1 := { p with product_state := "Liquid", viscosity := "Low",
                       target_market := "Consumer retail" }
    let p2 := if anyIn ["orange", "apple", "fruit"] product_lower then
        { p1 with oxygen_sensitivity := "High", light_sensitivity := "High",
                  ph_level := "Acidic" }
      else p1
    if pyIn "milk" product_lower then
      { p2 with storage_temperature := "Cold", light_sensitivity := "High" }
    else p2
  else if anyIn ["cheese", "butter", "yogurt", "cream"] product_lower then
    { p with product_state := "Semi-solid", storage_temperature := "Cold",
             oxygen_sensitivity := "Medium", light_sensitivity := "High",
             shelf_life_requirement := "Weeks" }
  else if anyIn ["oil", "vinegar", "sauce", "honey", "syrup", "dressing"] product_lower then
    { p with product_state := "Liquid",
             viscosity := if anyIn ["honey", "syrup"] product_lower then "High" else "Medium",
             oxygen_sensitivity := "High", light_sensitivity := "High" }
  else if anyIn ["rice", "pasta", "flour", "cereal", "grain", "oats", "bread"] product_lower then
    let p1 := { p with product_state := "Solid", viscosity := "N/A",
                       moisture_sensitivity := "High", oxygen_sensitivity := "Low",
                       storage_temperature := "Ambient" }
    if pyIn "bread" product_lower then
      { p1 with fragility_level := "Fragile", shelf_life_requirement := "Days" }
    else p1
  else if anyIn ["chips", "crackers", "cookies", "biscuits", "nuts", "candy"] product_lower then
    { p with product_state := "Solid", viscosity := "N/A",
             fragility_level := if pyIn "chips" product_lower then "Very Fragile" else "Fragile",
             oxygen_sensitivity := "High", moisture_sensitivity := "High" }
  else if anyIn ["meat", "chicken", "fish", "beef", "pork", "protein"] product_lower then
    { p with product_state := "Solid", storage_temperature := "Cold",
             oxygen_sensitivity := "High", shelf_life_requirement := "Days",
             safety_requirements := ["Sterile"] }
  else if anyIn ["frozen", "ice cream"] product_lower then
    { p with storage_temperature := "Frozen", oxygen_sensitivity := "High",
             moisture_sensitivity := "High" }
  else if anyIn ["canned", "soup"] product_lower then
    { p with product_state := if pyIn "soup" product_lower then "Liquid" else "Semi-solid",
             oxygen_sensitivity := "None", moisture_sensitivity := "None",
             shelf_life_requirement := "Years" }
  else if anyIn ["chocolate", "cake", "jam"] product_lower then
    { p with product_state := "Solid", moisture_sensitivity := "High",
             light_sensitivity := "High", brand_positioning := "Premium" }
  else p

/-- The cross-cutting cost and shelf-life adjustments (lines 324–334),
applied after category matching. -/
def crossAdjust (cost shelf_life : String) (p : AutoParams) : AutoParams :=
  let p1 :=
    if cost = "Premium" then
      { p with brand_positioning := "Premium", sustainability_priority := "Balanced" }
    else if cost = "Economy" then
      { p with brand_positioning := "Value", sustainability_priority := "Cost focused" }
    else p
  if (["Months", "Years"] : List String).contains shelf_life then
    { p1 with oxygen_sensitivity := "High", moisture_sensitivity := "High" }
  else p1

/-- `get_auto_parameters(product_name, purpose, cost, shelf_life, db)`
(lines 214–336).  `purpose` is lower-cased by the source (line 247) but
never read afterwards. -/
def get_auto_parameters (product_name purpose cost shelf_life : String) (db : DB) :
    AutoParams :=
  let _ := pyLower purpose
  let auto_params := defaultParams cost shelf_life
  match List.lookup product_name db.products with
  | some prod =>
    let p := auto_params.update prod.auto_parameters
    { p with budget_range := cost, shelf_life_requirement := shelf_life }
  | none =>
    let product_lower := pyLower product_name
    crossAdjust cost shelf_life (categorize product_lower auto_params)

/-- The saving path of `save_product_page` (lines 806–832): the inferred
profile is stored as the product record's `auto_parameters` and the product
is inserted into `db["products"]` (the page refuses a name that already
exists, so insertion is a plain addition). -/
def save_product (db : DB) (product_name purpose cost shelf_life : String) : DB :=
  let auto_params := get_auto_parameters product_name purpose cost shelf_life db
  { db with products := (product_name, { auto_parameters := toPartial auto_params }) :: db.products }

/-! ## The scorer (`calculate_packaging_score`, lines 338–436, and
`apply_recommendation_rules`, lines 438–458)

The scorer reads its profile argument (`user_inputs`) only through
`dict.get`, so the profile is a plain dict here: any key may be absent. -/

/-- The scorer's view of a profile: `user_inputs`. -/
abbrev UserInputs : Type := Dict String

/-- One line of `scoring_details`, abstracted from its display string to the
tag of the line and the points it reports. -/
inductive Detail where
  | productState (compatible : Bool) (pts : ℚ)
  | barrier (btype : String) (pts : ℚ)
  | chemical (compatible : Bool) (pts : ℚ)
  | costAlign (pts : ℚ)
  | temperature (compatible : Bool) (pts : ℚ)
  | sustainability (pts : ℚ)
  | ruleBonus (pts : ℚ)
deriving Repr, DecidableEq

/-- A bare `record[field]` access: a `KeyError` naming the field when it is
absent. -/
def req {α : Type} (o : Option α) (field : String) : Except String α :=
  match o with
  | some a => Except.ok a
  | none => Except.error field

/-- `material_data['characteristics'][f'{barrier_type}_barrier']` for the
three barrier types iterated at line 360. -/
def MaterialChars.barrierLevel (c : MaterialChars) (t : String) : Option String :=
  if t = "oxygen" then c.oxygen_barrier
  else if t = "moisture" then c.moisture_barrier
  else if t = "light" then c.light_barrier
  else none

/-- Lines 444–450: the trigger loop of `apply_recommendation_rules`.
`rule_triggered` starts `False` and is set as soon as one `key == value`
pair of one trigger matches the profile (the `break` leaves the inner loop
only, and the flag is never reset). -/
def ruleTriggered (user_inputs : UserInputs) (rd : RuleData) : Bool :=
  rd.triggers.foldl
    (fun flag trigger =>
      trigger.foldl (fun fl kv => fl || decide (dictGet? user_inputs kv.1 = some kv.2)) flag)
    false

/-- The body of the rule loop (lines 443–456): a triggered rule adds
`priority_score * 0.3` when the material is recommended, else subtracts
`priority_score * 0.2` when it is avoided (mutually exclusive `elif`). -/
def ruleStep (user_inputs : UserInputs) (material_name : String) (bonus_points : ℚ)
    (rule : String × RuleData) : ℚ :=
  if ruleTriggered user_inputs rule.2 then
    if rule.2.recommended_materials.contains material_name then
      bonus_points + rule.2.priority_score * (3 / 10)
    else if rule.2.avoid_materials.contains material_name then
      bonus_points - rule.2.priority_score * (2 / 10)
    else bonus_points
  else bonus_points

/-- `apply_recommendation_rules(user_inputs, material_name, db)`
(lines 438–458). -/
def apply_recommendation_rules (user_inputs : UserInputs) (material_name : String)
    (db : DB) : ℚ :=
  db.recommendation_rules.foldl (ruleStep user_inputs material_name) 0

/-- The barrier loop (lines 360–372): for each barrier type, the material's
barrier level is read (a `KeyError` if absent), lower-cased, and — when the
profile's sensitivity is a key of `barrier_scoring[type]` — the level
(title-cased) is looked up in that mapping with fallback 0; the points are
accumulated and one detail line per performed lookup is appended. -/
def barrierLoop (user_inputs : UserInputs) (c : MaterialChars)
    (barrier_scoring : Dict (Dict (Dict ℚ))) :
    List String → Except String (ℚ × List Detail)
  | [] => Except.ok (0, [])
  | t :: ts => do
    let user_need := dictGet user_inputs (t ++ "_sensitivity") "None"
    let raw ← req (c.barrierLevel t) (t ++ "_barrier")
    let material_barrier := pyLower raw
    let step : ℚ × List Detail :=
      match List.lookup t barrier_scoring with
      | none => (0, [])
      | some byNeed =>
        match List.lookup user_need byNeed with
        | none => (0, [])
        | some need_mapping =>
          let barrier_points := dictGet need_mapping (pyTitle material_barrier) 0
          (barrier_points, [Detail.barrier t barrier_points])
    let rest ← barrierLoop user_inputs c barrier_scoring ts
    Except.ok (step.1 + rest.1, step.2 ++ rest.2)

/-- The sustainability block (lines 412–421): under `Eco-focused` priority
the three sustainability flags are read (a `KeyError` if absent) and give
+4/+2/+2; any other priority gives a flat 4. -/
def sustainBlock (user_inputs : UserInputs) (s : Sustainability) : Except String ℚ :=
  if dictGet? user_inputs "sustainability_priority" = some "Eco-focused" then do
    let recyclable ← req s.recyclable "recyclable"
    let pcr ← req s.pcr_available "pcr_available"
    let bio ← req s.biodegradable "biodegradable"
    pure ((if recyclable then (4 : ℚ) else 0) + (if pcr then 2 else 0) + (if bio then 2 else 0))
  else pure 4

/-- `calculate_packaging_score(user_inputs, material_name, material_data, db)`
(lines 338–436). -/
def calculate_packaging_score (user_inputs : UserInputs) (material_name : String)
    (material_data : MaterialData) (db : DB) : Except String (ℚ × List Detail) := do
  let sp := db.scoring_parameters
  let weights := sp.compatibility_weights
  -- Product State Compatibility (lines 347–354)
  let psc ← req material_data.characteristics.product_state_compatibility
    "product_state_compatibility"
  let stateOk := match dictGet? user_inputs "product_state" with
    | some v => psc.contains v
    | none => false
  let psPts : ℚ × List Detail :=
    if stateOk then
      (dictGet weights "product_state" 25, [Detail.productState true (dictGet weights "product_state" 25)])
    else (0, [Detail.productState false 0])
  let max1 := dictGet weights "product_state" 25
  -- Barrier Requirements (lines 356–375)
  let barrier ← barrierLoop user_inputs material_data.characteristics sp.barrier_scoring
    ["oxygen", "moisture", "light"]
  let max2 := dictGet weights "barrier_requirements" 20
  -- Chemical Compatibility (lines 377–385)
  let user_ph := dictGet user_inputs "ph_level" "Neutral"
  let pht ← req material_data.characteristics.ph_tolerance "ph_tolerance"
  let chemPts : ℚ × List Detail :=
    if pht.contains user_ph then
      (dictGet weights "chemical_compatibility" 15,
       [Detail.chemical true (dictGet weights "chemical_compatibility" 15)])
    else (0, [Detail.chemical false 0])
  let max3 := dictGet weights "chemical_compatibility" 15
  -- Cost Alignment (lines 387–399)
  let user_budget := dictGet user_inputs "budget_range" "Standard"
  let material_cost ← req material_data.characteristics.cost_category "cost_category"
  let costPts : ℚ × List Detail :=
    match List.lookup user_budget sp.cost_scoring with
    | none => (0, [])
    | some byCost =>
      match List.lookup material_cost byCost with
      | none => (0, [])
      | some cost_score => (cost_score, [Detail.costAlign cost_score])
  let max4 := dictGet weights "cost_alignment" 12
  -- Temperature Requirements (lines 401–409)
  let user_temp := dictGet user_inputs "storage_temperature" "Ambient"
  let tr ← req material_data.characteristics.temperature_range "temperature_range"
  let tempPts : ℚ × List Detail :=
    if tr.contains user_temp then
      (dictGet weights "temperature_requirements" 10,
       [Detail.temperature true (dictGet weights "temperature_requirements" 10)])
    else (0, [Detail.temperature false 0])
  let max5 := dictGet weights "temperature_requirements" 10
  -- Sustainability Match (lines 411–425)
  let sustain_score ← sustainBlock user_inputs material_data.sustainability
  let max6 := dictGet weights "sustainability_match" 8
  -- Rule bonuses (lines 427–432)
  let rule_bonuses := apply_recommendation_rules user_inputs material_name db
  let ruleDetail : List Detail := if rule_bonuses > 0 then [Detail.ruleBonus rule_bonuses] else []
  -- Final score (line 434)
  let total_score := psPts.1 + barrier.1 + chemPts.1 + costPts.1 + tempPts.1
    + sustain_score + rule_bonuses
  let max_possible_score := max1 + max2 + max3 + max4 + max5 + max6
  let final_score : ℚ :=
    if max_possible_score > 0 then min 100 (total_score / max_possible_score * 100) else 0
  Except.ok (final_score,
    psPts.2 ++ barrier.2 ++ chemPts.2 ++ costPts.2 ++ tempPts.2
      ++ [Detail.sustainability sustain_score] ++ ruleDetail)

/-! ## Well-formed materials and the closed form of the scorer

A *well-formed* material record carries every field the scorer reads.  The
closed-form definitions below (`statePts` … `specScore`, `specDetails`) name
the quantities of the score formula; `calc_eval` proves that
`calculate_packaging_score` returns exactly them on a well-formed record. -/

/-- A material record with every required field present. -/
structure PlainMaterial where
  product_state_compatibility : List String
  oxygen_barrier : String
  moisture_barrier : String
  light_barrier : String
  ph_tolerance : List String
  cost_category : String
  temperature_range : List String
  recyclable : Bool
  pcr_available : Bool
  biodegradable : Bool
deriving Repr, DecidableEq

/-- The material record a `PlainMaterial` stands for. -/
def PlainMaterial.toMaterial (m : PlainMaterial) : MaterialData where
  characteristics :=
    { product_state_compatibility := some m.product_state_compatibility
      oxygen_barrier := some m.oxygen_barrier
      moisture_barrier := some m.moisture_barrier
      light_barrier := some m.light_barrier
      ph_tolerance := some m.ph_tolerance
      cost_category := some m.cost_category
      temperature_range := some m.temperature_range }
  sustainability :=
    { recyclable := some m.recyclable
      pcr_available := some m.pcr_available
      biodegradable := some m.biodegradable }

/-- One barrier lookup:
`barrier_scoring[type][profile sensitivity][material level lower-cased then
title-cased]`, 0 whenever a key on the path is absent. -/
def blookup (ui : UserInputs) (barrier_scoring : Dict (Dict (Dict ℚ))) (t : String)
    (materialBarrier : String) : ℚ :=
  match List.lookup t barrier_scoring with
  | none => 0
  | some byNeed =>
    match List.lookup (dictGet ui (t ++ "_sensitivity") "None") byNeed with
    | none => 0
    | some need_mapping => dictGet need_mapping (pyTitle (pyLower materialBarrier)) 0

/-- The detail line of one barrier lookup (appended only when the
sensitivity is a key of `barrier_scoring[type]`). -/
def bdetail (ui : UserInputs) (barrier_scoring : Dict (Dict (Dict ℚ))) (t : String)
    (materialBarrier : String) : List Detail :=
  match List.lookup t barrier_scoring with
  | none => []
  | some byNeed =>
    match List.lookup (dictGet ui (t ++ "_sensitivity") "None") byNeed with
    | none => []
    | some need_mapping =>
      [Detail.barrier t (dictGet need_mapping (pyTitle (pyLower materialBarrier)) 0)]

/-- The barrier sub-score: the sum of the three lookups. -/
def barrierSum (ui : UserInputs) (m : PlainMaterial) (sp : ScoringParams) : ℚ :=
  blookup ui sp.barrier_scoring "oxygen" m.oxygen_barrier
    + blookup ui sp.barrier_scoring "moisture" m.moisture_barrier
    + blookup ui sp.barrier_scoring "light" m.light_barrier

/-- The material's product state matches the profile's (a profile without
the key never matches, as `None in list` is false for a list of strings). -/
def stateOk (ui : UserInputs) (m : PlainMaterial) : Bool :=
  match dictGet? ui "product_state" with
  | some v => m.product_state_compatibility.contains v
  | none => false

/-- Points of the product-state factor. -/
def statePts (ui : UserInputs) (m : PlainMaterial) (w : Dict ℚ) : ℚ :=
  if stateOk ui m then dictGet w "product_state" 25 else 0

/-- Points of the chemical-compatibility factor. -/
def chemPts (ui : UserInputs) (m : PlainMaterial) (w : Dict ℚ) : ℚ :=
  if m.ph_tolerance.contains (dictGet ui "ph_level" "Neutral") then
    dictGet w "chemical_compatibility" 15
  else 0

/-- Points of the cost-alignment factor: the bare double lookup, 0 (and no
detail line) when either key is absent; the looked-up value may be
negative. -/
def costPts (ui : UserInputs) (m : PlainMaterial) (sp : ScoringParams) : ℚ :=
  match List.lookup (dictGet ui "budget_range" "Standard") sp.cost_scoring with
  | none => 0
  | some byCost =>
    match List.lookup m.cost_category byCost with
    | none => 0
    | some cost_score => cost_score

/-- Points of the temperature factor. -/
def tempPts (ui : UserInputs) (m : PlainMaterial) (w : Dict ℚ) : ℚ :=
  if m.temperature_range.contains (dictGet ui "storage_temperature" "Ambient") then
    dictGet w "temperature_requirements" 10
  else 0

/-- Points of the sustainability factor. -/
def sustainPts (ui : UserInputs) (m : PlainMaterial) : ℚ :=
  if dictGet? ui "sustainability_priority" = some "Eco-focused" then
    (if m.recyclable then (4 : ℚ) else 0) + (if m.pcr_available then 2 else 0)
      + (if m.biodegradable then 2 else 0)
  else 4

/-- `total_score` before rule bonuses. -/
def baseTotal (ui : UserInputs) (m : PlainMaterial) (db : DB) : ℚ :=
  statePts ui m db.scoring_parameters.compatibility_weights
    + barrierSum ui m db.scoring_parameters
    + chemPts ui m db.scoring_parameters.compatibility_weights
    + costPts ui m db.scoring_parameters
    + tempPts ui m db.scoring_parameters.compatibility_weights
    + sustainPts ui m

/-- `max_possible_score`: the sum of the six configured weights — the
barrier weight enters here and only here. -/
def maxPossible (db : DB) : ℚ :=
  let w := db.scoring_parameters.compatibility_weights
  dictGet w "product_state" 25 + dictGet w "barrier_requirements" 20
    + dictGet w "chemical_compatibility" 15 + dictGet w "cost_alignment" 12
    + dictGet w "temperature_requirements" 10 + dictGet w "sustainability_match" 8

/-- The final score in closed form. -/
def specScore (ui : UserInputs) (material_name : String) (m : PlainMaterial)
    (db : DB) : ℚ :=
  if maxPossible db > 0 then
    min 100 ((baseTotal ui m db + apply_recommendation_rules ui material_name db)
      / maxPossible db * 100)
  else 0

/-- The detail lines of the six base factors, in source order. -/
def baseDetails (ui : UserInputs) (m : PlainMaterial) (sp : ScoringParams) :
    List Detail :=
  (if stateOk ui m then
    [Detail.productState true (dictGet sp.compatibility_weights "product_state" 25)]
   else [Detail.productState false 0])
  ++ bdetail ui sp.barrier_scoring "oxygen" m.oxygen_barrier
  ++ bdetail ui sp.barrier_scoring "moisture" m.moisture_barrier
  ++ bdetail ui sp.barrier_scoring "light" m.light_barrier
  ++ (if m.ph_tolerance.contains (dictGet ui "ph_level" "Neutral") then
        [Detail.chemical true (dictGet sp.compatibility_weights "chemical_compatibility" 15)]
      else [Detail.chemical false 0])
  ++ (match List.lookup (dictGet ui "budget_range" "Standard") sp.cost_scoring with
      | none => []
      | some byCost =>
        match List.lookup m.cost_category byCost with
        | none => []
        | some cost_score => [Detail.costAlign cost_score])
  ++ (if m.temperature_range.contains (dictGet ui "storage_temperature" "Ambient") then
        [Detail.temperature true (dictGet sp.compatibility_weights "temperature_requirements" 10)]
      else [Detail.temperature false 0])
  ++ [Detail.sustainability (sustainPts ui m)]

/-- The detail list in closed form: the base lines, then a rule-bonus line
only when the bonus total is strictly positive. -/
def specDetails (ui : UserInputs) (material_name : String) (m : PlainMaterial)
    (db : DB) : List Detail :=
  baseDetails ui m db.scoring_parameters
    ++ (if apply_recommendation_rules ui material_name db > 0 then
          [Detail.ruleBonus (apply_recommendation_rules ui material_name db)]
        else [])

theorem exceptBind_ok {ε α β : Type} (a : α) (f : α → Except ε β) :
    (Except.ok a : Except ε α) >>= f = f a := rfl

/-- Unfolding one step of the barrier loop when the barrier field is
present. -/
theorem barrierLoop_cons (ui : UserInputs) (c : MaterialChars)
    (bs : Dict (Dict (Dict ℚ))) (t : String) (ts : List String) (b : String)
    (hb : c.barrierLevel t = some b) (q : ℚ) (ds : List Detail)
    (hrest : barrierLoop ui c bs ts = Except.ok (q, ds)) :
    barrierLoop ui c bs (t :: ts) =
      Except.ok (blookup ui bs t b + q, bdetail ui bs t b ++ ds) := by
  unfold barrierLoop
  rw [hb]
  simp only [req, exceptBind_ok, hrest, blookup, bdetail]
  cases hx : List.lookup t bs with
  | none => simp [hx]
  | some byNeed =>
    cases hy : List.lookup (dictGet ui (t ++ "_sensitivity") "None") byNeed with
    | none => simp [hx, hy]
    | some nm => simp [hx, hy]

/-- The barrier loop on a well-formed record: the sub-score is the sum of
the three lookups, each detail line as in `bdetail`. -/
theorem barrierLoop_eval (ui : UserInputs) (m : PlainMaterial) (sp : ScoringParams) :
    barrierLoop ui m.toMaterial.characteristics sp.barrier_scoring
        ["oxygen", "moisture", "light"] =
      Except.ok (barrierSum ui m sp,
        bdetail ui sp.barrier_scoring "oxygen" m.oxygen_barrier
          ++ bdetail ui sp.barrier_scoring "moisture" m.moisture_barrier
          ++ bdetail ui sp.barrier_scoring "light" m.light_barrier) := by
  have h3 : barrierLoop ui m.toMaterial.characteristics sp.barrier_scoring [] =
      Except.ok (0, []) := rfl
  have h2 := barrierLoop_cons ui m.toMaterial.characteristics sp.barrier_scoring
    "light" [] m.light_barrier rfl 0 [] h3
  have h1 := barrierLoop_cons ui m.toMaterial.characteristics sp.barrier_scoring
    "moisture" ["light"] m.moisture_barrier rfl _ _ h2
  have h0 := barrierLoop_cons ui m.toMaterial.characteristics sp.barrier_scoring
    "oxygen" ["moisture", "light"] m.oxygen_barrier rfl _ _ h1
  rw [h0]
  simp [barrierSum, add_assoc]

/-- The sustainability block on a well-formed record. -/
theorem sustainBlock_eval (ui : UserInputs) (m : PlainMaterial) :
    sustainBlock ui m.toMaterial.sustainability = Except.ok (sustainPts ui m) := by
  unfold sustainBlock sustainPts
  split <;> rfl

@[simp] theorem toMaterial_psc (m : PlainMaterial) :
    m.toMaterial.characteristics.product_state_compatibility =
      some m.product_state_compatibility := rfl

@[simp] theorem toMaterial_pht (m : PlainMaterial) :
    m.toMaterial.characteristics.ph_tolerance = some m.ph_tolerance := rfl

@[simp] theorem toMaterial_cc (m : PlainMaterial) :
    m.toMaterial.characteristics.cost_category = some m.cost_category := rfl

@[simp] theorem toMaterial_tr (m : PlainMaterial) :
    m.toMaterial.characteristics.temperature_range = some m.temperature_range := rfl

@[simp] theorem fst_ite {α β : Type} (c : Prop) [Decidable c] (a b : α × β) :
    (if c then a else b).1 = if c then a.1 else b.1 := by
  split <;> rfl

@[simp] theorem snd_ite {α β : Type} (c : Prop) [Decidable c] (a b : α × β) :
    (if c then a else b).2 = if c then a.2 else b.2 := by
  split <;> rfl

/-- `calculate_packaging_score` on a well-formed material record returns
exactly the closed-form score and detail list. -/
theorem calc_eval (ui : UserInputs) (n : String) (m : PlainMaterial) (db : DB) :
    calculate_packaging_score ui n m.toMaterial db =
      Except.ok (specScore ui n m db, specDetails ui n m db) := by
  unfold calculate_packaging_score
  simp only [toMaterial_psc, toMaterial_pht, toMaterial_cc, toMaterial_tr, req,
    exceptBind_ok, barrierLoop_eval, sustainBlock_eval]
  simp only [specScore, specDetails, baseDetails, baseTotal, statePts, stateOk, chemPts,
    costPts, tempPts, maxPossible, Except.ok.injEq, Prod.mk.injEq, fst_ite, snd_ite]
  cases hbud : List.lookup (dictGet ui "budget_range" "Standard")
      db.scoring_parameters.cost_scoring with
  | none =>
    simp only [hbud]
    constructor
    · ring_nf
    · simp [List.append_assoc]
  | some byCost =>
    cases hcost : List.lookup m.cost_category byCost with
    | none =>
      simp only [hbud, hcost]
      constructor
      · ring_nf
      · simp [List.append_assoc]
    | some cs =>
      simp only [hbud, hcost]
      constructor
      · ring_nf
      · simp [List.append_assoc]

/-! ## The claims -/

/-- C2: for every profile, well-formed material and scoring-parameter table,
the barrier sub-score is the sum of the three lookups
`barrier_scoring[type][profile sensitivity][material level lower-cased then
title-cased]` (0 when a key is absent), and this sum enters `total`
uncapped by the `barrier_requirements` weight: that weight is added only to
`max_possible`. -/
theorem C2_barrier_sum_uncapped (ui : UserInputs) (n : String) (m : PlainMaterial)
    (db : DB) :
    calculate_packaging_score ui n m.toMaterial db =
        Except.ok (specScore ui n m db, specDetails ui n m db)
      ∧ barrierSum ui m db.scoring_parameters =
          blookup ui db.scoring_parameters.barrier_scoring "oxygen" m.oxygen_barrier
            + blookup ui db.scoring_parameters.barrier_scoring "moisture" m.moisture_barrier
            + blookup ui db.scoring_parameters.barrier_scoring "light" m.light_barrier
      ∧ specScore ui n m db =
          (if maxPossible db > 0 then
            min 100
              ((statePts ui m db.scoring_parameters.compatibility_weights
                  + barrierSum ui m db.scoring_parameters
                  + chemPts ui m db.scoring_parameters.compatibility_weights
                  + costPts ui m db.scoring_parameters
                  + tempPts ui m db.scoring_parameters.compatibility_weights
                  + sustainPts ui m
                  + apply_recommendation_rules ui n db)
                / maxPossible db * 100)
          else 0)
      ∧ maxPossible db =
          dictGet db.scoring_parameters.compatibility_weights "product_state" 25
            + dictGet db.scoring_parameters.compatibility_weights "barrier_requirements" 20
            + dictGet db.scoring_parameters.compatibility_weights "chemical_compatibility" 15
            + dictGet db.scoring_parameters.compatibility_weights "cost_alignment" 12
            + dictGet db.scoring_parameters.compatibility_weights "temperature_requirements" 10
            + dictGet db.scoring_parameters.compatibility_weights "sustainability_match" 8 :=
  ⟨calc_eval ui n m db, rfl, rfl, rfl⟩

/-- C5: on a well-formed material the scorer returns (never raises), the
final score is `min(100, (total / max_possible) * 100)` when
`max_possible > 0`, and it is the value `0` — not a division error — when
`max_possible = 0`. -/
theorem C5_final_score_guard (ui : UserInputs) (n : String) (m : PlainMaterial)
    (db : DB) :
    calculate_packaging_score ui n m.toMaterial db =
        Except.ok (specScore ui n m db, specDetails ui n m db)
      ∧ (maxPossible db > 0 →
          specScore ui n m db =
            min 100 ((baseTotal ui m db + apply_recommendation_rules ui n db)
              / maxPossible db * 100))
      ∧ (maxPossible db = 0 → specScore ui n m db = 0) := by
  refine ⟨calc_eval ui n m db, fun h => ?_, fun h => ?_⟩
  · simp [specScore, h]
  · simp [specScore, h]

/-- A profile asking for a Standard budget and nothing else. -/
def cexProfile : UserInputs := [("budget_range", "Standard")]

/-- A well-formed material that matches nothing, with Standard cost. -/
def cexMaterial : PlainMaterial where
  product_state_compatibility := []
  oxygen_barrier := "Low"
  moisture_barrier := "Low"
  light_barrier := "Low"
  ph_tolerance := []
  cost_category := "Standard"
  temperature_range := []
  recyclable := false
  pcr_available := false
  biodegradable := false

/-- A scoring-parameter table whose Standard/Standard cost-alignment entry
is −50 (the table's values "may be negative", §3). -/
def cexDB : DB where
  scoring_parameters := { cost_scoring := [("Standard", [("Standard", -50)])] }

/-- C1 counterexample: with the −50 cost-alignment entry the total is
`0 + 0 + 0 − 50 + 0 + 4 = −46` against `max_possible = 90`, and the score
the scorer returns is `−460/9 < 0`: the claimed lower bound `0 ≤ score`
fails. -/
theorem C1_counterexample :
    calculate_packaging_score cexProfile "Mat" cexMaterial.toMaterial cexDB =
        Except.ok (specScore cexProfile "Mat" cexMaterial cexDB,
          specDetails cexProfile "Mat" cexMaterial cexDB)
      ∧ specScore cexProfile "Mat" cexMaterial cexDB < 0 := by
  refine ⟨calc_eval cexProfile "Mat" cexMaterial cexDB, ?_⟩
  unfold specScore
  rw [show maxPossible cexDB = 90 from by simp [maxPossible, cexDB, dictGet]; norm_num]
  rw [show baseTotal cexProfile cexMaterial cexDB = -46 from by
    simp [baseTotal, statePts, stateOk, barrierSum, blookup, chemPts, costPts, tempPts,
      sustainPts, cexProfile, cexMaterial, cexDB, dictGet, dictGet?, List.lookup]
    norm_num]
  rw [show apply_recommendation_rules cexProfile "Mat" cexDB = 0 from by
    simp [apply_recommendation_rules, cexDB]]
  norm_num [min_def]

/-- C1 amended: the score never exceeds 100, and it is nonnegative whenever
the accumulated total (which includes the possibly negative cost-alignment
points and rule bonuses) is nonnegative; a negative total yields a negative
score, so `0 ≤ score` does not hold unconditionally. -/
theorem C1_amended_score_bounds (ui : UserInputs) (n : String) (m : PlainMaterial)
    (db : DB) :
    calculate_packaging_score ui n m.toMaterial db =
        Except.ok (specScore ui n m db, specDetails ui n m db)
      ∧ specScore ui n m db ≤ 100
      ∧ (0 ≤ baseTotal ui m db + apply_recommendation_rules ui n db →
          0 ≤ specScore ui n m db) := by
  refine ⟨calc_eval ui n m db, ?_, fun ht => ?_⟩
  · unfold specScore
    split
    · exact min_le_left _ _
    · norm_num
  · unfold specScore
    split
    · rename_i hmax
      refine le_min (by norm_num) ?_
      have h1 : 0 ≤ (baseTotal ui m db + apply_recommendation_rules ui n db) / maxPossible db :=
        div_nonneg ht (le_of_lt hmax)
      positivity
    · exact le_refl 0

/-- A rule-bonus line never comes from a barrier lookup. -/
theorem ruleBonus_not_mem_bdetail (ui : UserInputs) (bs : Dict (Dict (Dict ℚ)))
    (t b : String) (x : ℚ) : Detail.ruleBonus x ∉ bdetail ui bs t b := by
  unfold bdetail
  split
  · simp
  · split <;> simp

/-- A rule-bonus line never comes from one of the six base factors. -/
theorem ruleBonus_not_mem_baseDetails (ui : UserInputs) (m : PlainMaterial)
    (sp : ScoringParams) (x : ℚ) : Detail.ruleBonus x ∉ baseDetails ui m sp := by
  unfold baseDetails
  simp only [List.mem_append, not_or, and_assoc]
  refine ⟨?_, ?_, ?_, ?_, ?_, ?_, ?_, ?_⟩
  · split <;> simp
  · exact ruleBonus_not_mem_bdetail ui sp.barrier_scoring "oxygen" m.oxygen_barrier x
  · exact ruleBonus_not_mem_bdetail ui sp.barrier_scoring "moisture" m.moisture_barrier x
  · exact ruleBonus_not_mem_bdetail ui sp.barrier_scoring "light" m.light_barrier x
  · split <;> simp
  · split
    · simp
    · split <;> simp
  · split <;> simp
  · simp

/-- C10: the rule-bonus total is always added to `total` (it appears in the
score whatever its sign), but a `Rule bonuses` detail line is appended iff
the total is strictly positive; a net penalty therefore lowers the score —
strictly so whenever the cap at 100 is not already in force — while leaving
no trace in the details list. -/
theorem C10_rule_bonus_detail_asymmetry (ui : UserInputs) (n : String)
    (m : PlainMaterial) (db : DB) :
    calculate_packaging_score ui n m.toMaterial db =
        Except.ok (specScore ui n m db, specDetails ui n m db)
      ∧ (Detail.ruleBonus (apply_recommendation_rules ui n db) ∈ specDetails ui n m db
          ↔ apply_recommendation_rules ui n db > 0)
      ∧ specScore ui n m db =
          (if maxPossible db > 0 then
            min 100 ((baseTotal ui m db + apply_recommendation_rules ui n db)
              / maxPossible db * 100)
          else 0)
      ∧ (apply_recommendation_rules ui n db ≤ 0 →
          specScore ui n m db ≤
            (if maxPossible db > 0 then min 100 (baseTotal ui m db / maxPossible db * 100)
             else 0))
      ∧ (apply_recommendation_rules ui n db < 0 → maxPossible db > 0 →
          baseTotal ui m db / maxPossible db * 100 ≤ 100 →
          specScore ui n m db <
            (if maxPossible db > 0 then min 100 (baseTotal ui m db / maxPossible db * 100)
             else 0)) := by
  refine ⟨calc_eval ui n m db, ?_, rfl, fun hb => ?_, fun hb hmax hcap => ?_⟩
  · unfold specDetails
    constructor
    · intro hmem
      rcases List.mem_append.mp hmem with h | h
      · exact absurd h (ruleBonus_not_mem_baseDetails ui m db.scoring_parameters _)
      · revert h
        split
        · rename_i hpos
          exact fun _ => hpos
        · simp
    · intro hpos
      exact List.mem_append.mpr (Or.inr (by simp [if_pos hpos]))
  · unfold specScore
    split
    · rename_i hmax
      refine min_le_min (le_refl _) ?_
      have hle : baseTotal ui m db + apply_recommendation_rules ui n db ≤ baseTotal ui m db := by
        linarith
      exact mul_le_mul_of_nonneg_right
        ((div_le_div_iff_of_pos_right hmax).mpr hle) (by norm_num)
    · exact le_refl _
  · rw [if_pos hmax]
    unfold specScore
    rw [if_pos hmax]
    have hlt : (baseTotal ui m db + apply_recommendation_rules ui n db) / maxPossible db * 100
        < baseTotal ui m db / maxPossible db * 100 := by
      have : (baseTotal ui m db + apply_recommendation_rules ui n db) / maxPossible db
          < baseTotal ui m db / maxPossible db :=
        (div_lt_div_iff_of_pos_right hmax).mpr (by linarith)
      linarith
    calc min 100 ((baseTotal ui m db + apply_recommendation_rules ui n db)
            / maxPossible db * 100)
        ≤ (baseTotal ui m db + apply_recommendation_rules ui n db)
            / maxPossible db * 100 := min_le_right _ _
      _ < baseTotal ui m db / maxPossible db * 100 := hlt
      _ = min 100 (baseTotal ui m db / maxPossible db * 100) := (min_eq_right hcap).symm

theorem exceptBind_err {ε α β : Type} (e : ε) (f : α → Except ε β) :
    (Except.error e : Except ε α) >>= f = Except.error e := rfl

/-- C8: the scorer never raises for a profile missing any attribute key
(every profile read is a `get` with a documented default, so any profile
dict scores against a well-formed material), but it is partial over
malformed material records: a record missing a required characteristics
field — `product_state_compatibility` or `oxygen_barrier` — raises a
`KeyError` naming the field rather than silently scoring.  Inference is
embedded as the total function `get_auto_parameters`, so its totality holds
by construction. -/
theorem C8_scorer_total_on_profiles_partial_on_materials :
    (∀ (ui : UserInputs) (n : String) (m : PlainMaterial) (db : DB),
      ∃ r, calculate_packaging_score ui n m.toMaterial db = Except.ok r)
  ∧ (∀ (ui : UserInputs) (n : String) (db : DB) (c : MaterialChars) (s : Sustainability),
      c.product_state_compatibility = none →
      calculate_packaging_score ui n ⟨c, s⟩ db =
        Except.error "product_state_compatibility")
  ∧ (∀ (ui : UserInputs) (n : String) (db : DB) (c : MaterialChars) (s : Sustainability)
      (l : List String),
      c.product_state_compatibility = some l → c.oxygen_barrier = none →
      calculate_packaging_score ui n ⟨c, s⟩ db = Except.error "oxygen_barrier") := by
  refine ⟨fun ui n m db => ⟨_, calc_eval ui n m db⟩,
    fun ui n db c s h => ?_, fun ui n db c s l h1 h2 => ?_⟩
  · unfold calculate_packaging_score
    simp [h, req, exceptBind_err]
  · unfold calculate_packaging_score
    simp [h1, h2, req, exceptBind_ok, exceptBind_err, barrierLoop,
      MaterialChars.barrierLevel]

/-- The flag-carrying fold of the trigger loop is an OR. -/
theorem foldl_or {α : Type} (f : α → Bool) :
    ∀ (l : List α) (b : Bool), l.foldl (fun fl x => fl || f x) b = (b || l.any f)
  | [], b => by simp
  | a :: l, b => by
    rw [List.foldl_cons, foldl_or f l (b || f a), List.any_cons, Bool.or_assoc]

/-- The two nested flag-carrying folds of lines 444–450 are an OR over all
(trigger, pair) pairs. -/
theorem foldl_or_nested (P : String × String → Bool) :
    ∀ (ts : List (Dict String)) (b : Bool),
      ts.foldl (fun flag trigger => trigger.foldl (fun fl kv => fl || P kv) flag) b
        = (b || ts.any fun trigger => trigger.any P)
  | [], b => by simp
  | t :: ts, b => by
    rw [List.foldl_cons, foldl_or_nested P ts _, foldl_or P t b, List.any_cons,
      Bool.or_assoc]

/-- C3: a rule is triggered if and only if at least one `key == value` pair
of at least one trigger matches the profile — an OR over all
(trigger, key) pairs, not an AND within a trigger. -/
theorem C3_trigger_is_or_over_pairs (ui : UserInputs) (rd : RuleData) :
    ruleTriggered ui rd = true ↔
      ∃ trigger ∈ rd.triggers, ∃ kv ∈ trigger, dictGet? ui kv.1 = some kv.2 := by
  unfold ruleTriggered
  rw [foldl_or_nested]
  simp

/-- One rule-loop step starting from a shifted accumulator. -/
theorem ruleStep_shift (ui : UserInputs) (n : String) (r : String × RuleData)
    (a b : ℚ) : ruleStep ui n (a + b) r = a + ruleStep ui n b r := by
  unfold ruleStep
  split
  · split
    · ring
    · split
      · ring
      · rfl
  · rfl

/-- The rule fold distributes over the accumulator. -/
theorem rules_foldl_shift (ui : UserInputs) (n : String) :
    ∀ (rules : Dict RuleData) (a : ℚ),
      rules.foldl (ruleStep ui n) a = a + rules.foldl (ruleStep ui n) 0
  | [], a => by simp
  | r :: rs, a => by
    rw [List.foldl_cons, List.foldl_cons,
      rules_foldl_shift ui n rs (ruleStep ui n a r),
      rules_foldl_shift ui n rs (ruleStep ui n 0 r),
      show ruleStep ui n a r = a + ruleStep ui n 0 r by
        simpa using ruleStep_shift ui n r a 0]
    ring

/-- C4: for a triggered rule listing a material in both
`recommended_materials` and `avoid_materials`, only the bonus
`priority_score * 0.3` is applied (never also the penalty
`priority_score * 0.2`), and bonuses from distinct rules accumulate
additively. -/
theorem C4_bonus_exclusive_and_additive :
    (∀ (ui : UserInputs) (n rn : String) (rd : RuleData) (db : DB),
      ruleTriggered ui rd = true →
      rd.recommended_materials.contains n = true →
      rd.avoid_materials.contains n = true →
      apply_recommendation_rules ui n { db with recommendation_rules := [(rn, rd)] } =
        rd.priority_score * (3 / 10))
  ∧ (∀ (ui : UserInputs) (n : String) (db : DB) (l1 l2 : Dict RuleData),
      apply_recommendation_rules ui n { db with recommendation_rules := l1 ++ l2 } =
        apply_recommendation_rules ui n { db with recommendation_rules := l1 }
          + apply_recommendation_rules ui n { db with recommendation_rules := l2 }) := by
  constructor
  · intro ui n rn rd db ht hr _
    have h1 : n ∈ rd.recommended_materials := by simpa using hr
    simp [apply_recommendation_rules, ruleStep, ht, h1]
  · intro ui n db l1 l2
    unfold apply_recommendation_rules
    simp only [List.foldl_append]
    rw [rules_foldl_shift]

/-! ## Inference claims -/

/-- Neither the category cascade nor any later step touches
`budget_range`. -/
theorem categorize_budget_range (l : String) (p : AutoParams) :
    (categorize l p).budget_range = p.budget_range := by
  simp [categorize, apply_ite AutoParams.budget_range]

/-- The cross-cutting adjustments never touch `budget_range`. -/
theorem crossAdjust_budget_range (cost shelf_life : String) (p : AutoParams) :
    (crossAdjust cost shelf_life p).budget_range = p.budget_range := by
  simp [crossAdjust, apply_ite AutoParams.budget_range]

/-- On the fresh-product path the returned `budget_range` is the caller's
`cost`. -/
theorem fresh_budget_range (product_name purpose cost shelf_life : String) (db : DB)
    (hnew : List.lookup product_name db.products = none) :
    (get_auto_parameters product_name purpose cost shelf_life db).budget_range = cost := by
  unfold get_auto_parameters
  rw [hnew, crossAdjust_budget_range, categorize_budget_range]
  rfl

/-- C6: on the inference path for a product not stored in the catalog, the
cross-cutting adjustments are applied unconditionally after category
matching: Premium cost forces Premium positioning; Economy cost forces
Value positioning and Cost-focused sustainability; a Months or Years shelf
life forces High oxygen and moisture sensitivity, overriding any
category-specific value. -/
theorem C6_cross_cutting_adjustments (product_name purpose cost shelf_life : String)
    (db : DB) (hnew : List.lookup product_name db.products = none) :
    (cost = "Premium" →
        (get_auto_parameters product_name purpose cost shelf_life db).brand_positioning =
          "Premium")
      ∧ (cost = "Economy" →
          (get_auto_parameters product_name purpose cost shelf_life db).brand_positioning =
              "Value"
            ∧ (get_auto_parameters product_name purpose cost shelf_life
                db).sustainability_priority = "Cost focused")
      ∧ (shelf_life ∈ (["Months", "Years"] : List String) →
          (get_auto_parameters product_name purpose cost shelf_life db).oxygen_sensitivity =
              "High"
            ∧ (get_auto_parameters product_name purpose cost shelf_life
                db).moisture_sensitivity = "High") := by
  have hg : get_auto_parameters product_name purpose cost shelf_life db =
      crossAdjust cost shelf_life
        (categorize (pyLower product_name) (defaultParams cost shelf_life)) := by
    unfold get_auto_parameters
    rw [hnew]
  rw [hg]
  refine ⟨fun hc => ?_, fun hc => ?_, fun hs => ?_⟩
  · subst hc
    simp [crossAdjust, apply_ite AutoParams.brand_positioning]
  · subst hc
    constructor
    · simp [crossAdjust, apply_ite AutoParams.brand_positioning]
    · simp [crossAdjust, apply_ite AutoParams.sustainability_priority]
  · have hcontains : (["Months", "Years"] : List String).contains shelf_life = true := by
      rcases List.mem_cons.mp hs with rfl | h2
      · decide
      · rcases List.mem_cons.mp h2 with rfl | h3
        · decide
        · exact absurd h3 (List.not_mem_nil _)
    unfold crossAdjust
    rw [if_pos hcontains]
    exact ⟨rfl, rfl⟩

/-- C6 witness: an unknown product with Economy cost and a Years shelf
life gets High oxygen and moisture sensitivity. -/
theorem C6_witness :
    (get_auto_parameters "Gadget" "Protection & Storage" "Economy" "Years"
          ({} : DB)).oxygen_sensitivity = "High"
      ∧ (get_auto_parameters "Gadget" "Protection & Storage" "Economy" "Years"
          ({} : DB)).moisture_sensitivity = "High" :=
  (C6_cross_cutting_adjustments "Gadget" "Protection & Storage" "Economy" "Years"
    ({} : DB) rfl).2.2 (by decide)

/-- The stored-profile path of `get_auto_parameters` in closed form. -/
theorem stored_path_eq (product_name purpose cost shelf_life : String) (db : DB)
    (prod : Product) (hstored : List.lookup product_name db.products = some prod) :
    get_auto_parameters product_name purpose cost shelf_life db =
      { (defaultParams cost shelf_life).update prod.auto_parameters with
          budget_range := cost, shelf_life_requirement := shelf_life } := by
  unfold get_auto_parameters
  rw [hstored]

/-- C9: on the stored-profile path the result is the default profile
updated with the stored record with exactly `budget_range` and
`shelf_life_requirement` overwritten by the caller's inputs; every other
stored field is returned unchanged (in particular no cross-cutting
adjustment runs on this path). -/
theorem C9_stored_path_frame (product_name purpose cost shelf_life : String)
    (db : DB) (prod : Product)
    (hstored : List.lookup product_name db.products = some prod) :
    get_auto_parameters product_name purpose cost shelf_life db =
        { (defaultParams cost shelf_life).update prod.auto_parameters with
            budget_range := cost, shelf_life_requirement := shelf_life }
      ∧ (get_auto_parameters product_name purpose cost shelf_life db).budget_range = cost
      ∧ (get_auto_parameters product_name purpose cost shelf_life
          db).shelf_life_requirement = shelf_life
      ∧ (∀ v, prod.auto_parameters.product_state = some v →
          (get_auto_parameters product_name purpose cost shelf_life db).product_state = v)
      ∧ (∀ v, prod.auto_parameters.viscosity = some v →
          (get_auto_parameters product_name purpose cost shelf_life db).viscosity = v)
      ∧ (∀ v, prod.auto_parameters.ph_level = some v →
          (get_auto_parameters product_name purpose cost shelf_life db).ph_level = v)
      ∧ (∀ v, prod.auto_parameters.oxygen_sensitivity = some v →
          (get_auto_parameters product_name purpose cost shelf_life db).oxygen_sensitivity = v)
      ∧ (∀ v, prod.auto_parameters.moisture_sensitivity = some v →
          (get_auto_parameters product_name purpose cost shelf_life db).moisture_sensitivity = v)
      ∧ (∀ v, prod.auto_parameters.light_sensitivity = some v →
          (get_auto_parameters product_name purpose cost shelf_life db).light_sensitivity = v)
      ∧ (∀ v, prod.auto_parameters.storage_temperature = some v →
          (get_auto_parameters product_name purpose cost shelf_life db).storage_temperature = v)
      ∧ (∀ v, prod.auto_parameters.target_market = some v →
          (get_auto_parameters product_name purpose cost shelf_life db).target_market = v)
      ∧ (∀ v, prod.auto_parameters.industry_category = some v →
          (get_auto_parameters product_name purpose cost shelf_life db).industry_category = v)
      ∧ (∀ v, prod.auto_parameters.sustainability_priority = some v →
          (get_auto_parameters product_name purpose cost shelf_life
            db).sustainability_priority = v)
      ∧ (∀ v, prod.auto_parameters.safety_requirements = some v →
          (get_auto_parameters product_name purpose cost shelf_life db).safety_requirements = v)
      ∧ (∀ v, prod.auto_parameters.brand_positioning = some v →
          (get_auto_parameters product_name purpose cost shelf_life db).brand_positioning = v)
      ∧ (∀ v, prod.auto_parameters.fragility_level = some v →
          (get_auto_parameters product_name purpose cost shelf_life db).fragility_level = v) := by
  have hg := stored_path_eq product_name purpose cost shelf_life db prod hstored
  refine ⟨hg, ?_, ?_, ?_, ?_, ?_, ?_, ?_, ?_, ?_, ?_, ?_, ?_, ?_, ?_, ?_⟩
  · rw [hg]
  · rw [hg]
  all_goals intro v hv
  all_goals rw [hg]
  all_goals simp [AutoParams.update, hv]

/-- A stored record whose positioning differs from what the Economy
cross-cutting rule would force. -/
def storedProduct : Product where
  auto_parameters := { product_state := some "Gas", brand_positioning := some "Luxury" }

/-- A catalog holding `storedProduct` under the name "Helium". -/
def storedDB : DB where
  products := [("Helium", storedProduct)]

/-- C9 witness: with Economy cost the stored positioning "Luxury" is
returned unchanged — the cross-cutting rule that would set "Value" does
not run on the stored path. -/
theorem C9_witness :
    (get_auto_parameters "Helium" "Protection & Storage" "Economy" "Days"
        storedDB).brand_positioning = "Luxury" :=
  (C9_stored_path_frame "Helium" "Protection & Storage" "Economy" "Days"
    storedDB storedProduct rfl).2.2.2.2.2.2.2.2.2.2.2.2.2.2.1 "Luxury" rfl

/-- Updating any profile with a stored record that carries every key yields
that record's values. -/
theorem update_toPartial (q p : AutoParams) : q.update (toPartial p) = p := rfl

/-- C7 counterexample: "Cheese" with a Months shelf life.  The dairy
category block stores `shelf_life_requirement = "Weeks"`, but re-inference
with the same inputs overwrites that field with the caller's "Months", so
the re-inferred profile differs from the stored one. -/
theorem C7_counterexample :
    (get_auto_parameters "Cheese" "Protection & Storage" "Standard" "Months"
        (save_product {} "Cheese" "Protection & Storage" "Standard"
          "Months")).shelf_life_requirement = "Months"
      ∧ (get_auto_parameters "Cheese" "Protection & Storage" "Standard" "Months"
          ({} : DB)).shelf_life_requirement = "Weeks"
      ∧ get_auto_parameters "Cheese" "Protection & Storage" "Standard" "Months"
            (save_product {} "Cheese" "Protection & Storage" "Standard" "Months")
          ≠ get_auto_parameters "Cheese" "Protection & Storage" "Standard" "Months"
            ({} : DB) := by
  refine ⟨rfl, rfl, fun h => ?_⟩
  have h2 := congrArg AutoParams.shelf_life_requirement h
  exact absurd h2 (by decide)

/-- C7 amended: re-inference after saving returns the stored profile with
`shelf_life_requirement` overwritten by the caller's `shelf_life` (the
stored `budget_range` already equals the caller's `cost`); it is identical
to the stored profile exactly when the stored `shelf_life_requirement`
equals the caller's `shelf_life`, which a category block may have
overridden. -/
theorem C7_amended_round_trip (product_name purpose purpose2 cost shelf_life : String)
    (db : DB) (hnew : List.lookup product_name db.products = none) :
    get_auto_parameters product_name purpose2 cost shelf_life
        (save_product db product_name purpose cost shelf_life) =
      { get_auto_parameters product_name purpose cost shelf_life db with
          shelf_life_requirement := shelf_life }
  ∧ ((get_auto_parameters product_name purpose cost shelf_life
        db).shelf_life_requirement = shelf_life →
      get_auto_parameters product_name purpose2 cost shelf_life
          (save_product db product_name purpose cost shelf_life) =
        get_auto_parameters product_name purpose cost shelf_life db) := by
  have hb := fresh_budget_range product_name purpose cost shelf_life db hnew
  have hsave : List.lookup product_name
      (save_product db product_name purpose cost shelf_life).products =
      some { auto_parameters :=
        toPartial (get_auto_parameters product_name purpose cost shelf_life db) } := by
    simp [save_product, List.lookup]
  generalize hP : get_auto_parameters product_name purpose cost shelf_life db = P
    at hb hsave ⊢
  have hmain : get_auto_parameters product_name purpose2 cost shelf_life
      (save_product db product_name purpose cost shelf_life) =
      { P with shelf_life_requirement := shelf_life } := by
    rw [stored_path_eq product_name purpose2 cost shelf_life _ _ hsave]
    show { (defaultParams cost shelf_life).update (toPartial P) with
      budget_range := cost, shelf_life_requirement := shelf_life } = _
    rw [update_toPartial, ← hb]
  refine ⟨hmain, fun hsl => ?_⟩
  rw [hmain, ← hsl]

/-- C7 amended witness: for the unknown product "Gadget" (no category
keyword matches, so the stored shelf life equals the input) the round trip
is exact. -/
theorem C7_amended_witness :
    get_auto_parameters "Gadget" "Protection & Storage" "Standard" "Months"
        (save_product {} "Gadget" "Protection & Storage" "Standard" "Months") =
      get_auto_parameters "Gadget" "Protection & Storage" "Standard" "Months" ({} : DB) :=
  (C7_amended_round_trip "Gadget" "Protection & Storage" "Protection & Storage"
    "Standard" "Months" {} rfl).2 rfl

end PackagingApp
